import Mathlib

/-!
Verification of the opensearch repository SDK (`opensearch.go`).

The Go code is shallowly embedded:
* JSON values (`interface{}` after `encoding/json` decoding) become `JsonVal`;
  numbers in result envelopes are restricted to integers, matching the claims
  (Go decodes JSON numbers to `float64`, and `calMetadata` converts with
  `int(...)`, which is exact on integer values).
* Go maps `map[string]interface{}` become association lists with Go map
  semantics: lookup of a missing key yields the zero value (`nil`, embedded as
  `JsonVal.null`); assignment replaces an existing binding.
* Go runtime panics (failed interface type assertion, division by zero,
  calling `Error()` on a nil `error` interface) become the `GoPanic` error
  channel of `Except GoPanic _`: a `.error` outcome means the Go call panics
  instead of returning.
* The engine client (`opensearch-go`) is an external collaborator; each
  operation is parameterized by the engine's observable behavior (transport
  error or HTTP status code plus decodable body).
-/

/-- Dynamic JSON value, the embedding of Go `interface{}` holding decoded JSON. -/
inductive JsonVal where
  | null
  | bool (b : Bool)
  | num (n : Int)
  | str (s : String)
  | arr (xs : List JsonVal)
  | obj (fields : List (String × JsonVal))

/-- Embedding of Go `map[string]interface{}` as an association list. -/
def GoMap : Type := List (String × JsonVal)

/-- Go map read `m[k]`: the zero value `nil` is returned for a missing key. -/
def mapGet (m : GoMap) (k : String) : JsonVal :=
  match m with
  | [] => .null
  | (k2, v) :: rest => if k2 = k then v else mapGet rest k

/-- Go map assignment `m[k] = v`: replaces an existing binding, else appends. -/
def mapInsert (m : GoMap) (k : String) (v : JsonVal) : GoMap :=
  match m with
  | [] => [(k, v)]
  | (k2, v2) :: rest => if k2 = k then (k, v) :: rest else (k2, v2) :: mapInsert rest k v

/-- Go runtime panics that the embedded code can raise. -/
inductive GoPanic where
  | typeAssertion
  | divByZero
  | nilErrorDeref

/-- Go `error` values produced or propagated by the repository:
`msg` is `errors.New` with the given text; `external` is an opaque error
coming from a library call (marshal, transport, decode, engine client). -/
inductive GoError where
  | msg (s : String)
  | external (tag : String)

/-- Result of the `Error()` method on a non-nil Go error. -/
def GoError.message : GoError → String
  | .msg s => s
  | .external s => s

/-- Go type assertion `v.(map[string]interface{})`: panics unless `v` is an object. -/
def asObj : JsonVal → Except GoPanic (List (String × JsonVal))
  | .obj fields => .ok fields
  | _ => .error .typeAssertion

/-- Go type assertion `v.(float64)` on a decoded JSON number (integer-valued here). -/
def asNum : JsonVal → Except GoPanic Int
  | .num n => .ok n
  | _ => .error .typeAssertion

/-- Go type assertion `v.([]interface{})`: panics unless `v` is an array. -/
def asArr : JsonVal → Except GoPanic (List JsonVal)
  | .arr xs => .ok xs
  | _ => .error .typeAssertion

/-- Pagination metadata from the external `repositorysdk` package. The code
reads and writes the exported fields `ItemsPerPage`, `TotalItem`, `TotalPage`,
`ItemCount` and calls the accessors `GetOffset`/`GetItemPerPage`; the offset is
modelled as a stored input field (the spec lists `page`/`offset` as inputs of
the metadata), returned unchanged by `GetOffset`. -/
structure PaginationMetadata where
  ItemsPerPage : Int
  Offset : Int
  TotalItem : Int
  TotalPage : Int
  ItemCount : Int

/-- Accessor used by `Search` for the `from` key. -/
def PaginationMetadata.GetOffset (m : PaginationMetadata) : Int := m.Offset

/-- Accessor used by `Search` for the `size` key. -/
def PaginationMetadata.GetItemPerPage (m : PaginationMetadata) : Int := m.ItemsPerPage

/-- Embedding of `calMetadata` (opensearch.go). The Go function mutates `meta`
in place and returns nothing; the only failure mode is a runtime panic from an
unchecked type assertion or integer division by zero. Division and modulus use
`Int.tdiv`/`Int.tmod` (truncated), matching Go `/` and `%` on `int`. The
evaluation order follows the source: `hits` assertion, `total.value` assertion,
division by `ItemsPerPage`, then the `hits.hits` assertion, then the
remainder test. -/
def calMetadata (meta : PaginationMetadata) (result : GoMap) :
    Except GoPanic PaginationMetadata :=
  (asObj (mapGet result "hits")).bind fun hits =>
    (asObj (mapGet hits "total")).bind fun total =>
      (asNum (mapGet total "value")).bind fun totalItemValue =>
        if meta.ItemsPerPage = 0 then .error .divByZero
        else
          (asArr (mapGet hits "hits")).bind fun hitsList =>
            let m := { meta with
                        TotalItem := totalItemValue
                        TotalPage := Int.tdiv totalItemValue meta.ItemsPerPage
                        ItemCount := (hitsList.length : Int) }
            if Int.tmod totalItemValue meta.ItemsPerPage ≠ 0 then
              .ok { m with TotalPage := m.TotalPage + 1 }
            else
              .ok m

theorem mapGet_insert_same (m : GoMap) (k : String) (v : JsonVal) :
    mapGet (mapInsert m k v) k = v := by
  induction m with
  | nil => simp [mapInsert, mapGet]
  | cons p rest ih =>
    obtain ⟨k2, v2⟩ := p
    by_cases h : k2 = k
    · simp [mapInsert, mapGet, h]
    · simp [mapInsert, mapGet, h, ih]

theorem mapGet_insert_other (m : GoMap) (k k2 : String) (v : JsonVal) (h : k2 ≠ k) :
    mapGet (mapInsert m k v) k2 = mapGet m k2 := by
  have hk : k ≠ k2 := Ne.symm h
  induction m with
  | nil => simp [mapInsert, mapGet, hk]
  | cons p rest ih =>
    obtain ⟨k3, v3⟩ := p
    by_cases h3 : k3 = k
    · subst h3
      simp [mapInsert, mapGet, hk]
    · simp only [mapInsert, if_neg h3, mapGet]
      by_cases h4 : k3 = k2
      · simp [h4]
      · simp [h4, ih]

/-- Outbound request body built by `Search`: the code mutates the caller map
with `(*req)["from"] = meta.GetOffset()` and `(*req)["size"] = meta.GetItemPerPage()`
before marshalling. -/
def searchOutboundReq (req : GoMap) (meta : PaginationMetadata) : GoMap :=
  mapInsert (mapInsert req "from" (.num meta.GetOffset)) "size" (.num meta.GetItemPerPage)

/-- Outbound request body built by `Suggest`: the code sets `(*req)["size"] = 10`
(comment in source: set maximum suggestion = 10) before marshalling. -/
def suggestOutboundReq (req : GoMap) : GoMap :=
  mapInsert req "size" (.num 10)

/-- Observable behavior of the engine for one `Search`/`Suggest` call:
whether `json.Marshal` of the request fails, and the outcome of
`search.Do` — a transport error, or an HTTP status code together with the
outcome of decoding the response body. -/
structure SearchEnv where
  marshalErr : Option GoError
  doResult : Except GoError (Int × Except GoError GoMap)

/-- Observable outcome of one `Search` call. `ret` is `.error p` when the Go
code panics with `p` instead of returning; `.ok e` is a normal return with
error value `e` (`none` is a nil error). `bodyObtained`/`bodyClosed` record
whether a response body existed and whether `res.Body.Close()` ran before the
call exited (deferred closes also run during panic unwinding). `sentBody` is
the marshalled request handed to the transport, and `metaAfter`/`resultAfter`
are the caller-visible out-parameters. -/
structure SearchOutput where
  ret : Except GoPanic (Option GoError)
  bodyObtained : Bool
  bodyClosed : Bool
  sentBody : Option GoMap
  metaAfter : PaginationMetadata
  resultAfter : GoMap

/-- Embedding of `Search` (opensearch.go). Control flow of the source:
inject `from`/`size`; marshal (error: log and return it); `search.Do`
(error: log and return it); if `res.StatusCode > 200`, build an error log
whose message is `err.Error()` — but `err` is nil on this path, so the call
panics before `errors.New("Invalid query")` can be returned; only after that
check is `res.Body.Close()` deferred; decode (error: return it); finally
`calMetadata` (whose type-assertion panics propagate, with the deferred close
running during unwinding) and return nil. -/
def searchModel (env : SearchEnv) (req : GoMap) (meta : PaginationMetadata)
    (result : GoMap) : SearchOutput :=
  let outbound := searchOutboundReq req meta
  match env.marshalErr with
  | some e => ⟨.ok (some e), false, false, none, meta, result⟩
  | none =>
    match env.doResult with
    | .error e => ⟨.ok (some e), false, false, some outbound, meta, result⟩
    | .ok (status, bodyDecode) =>
      if status > 200 then
        ⟨.error .nilErrorDeref, true, false, some outbound, meta, result⟩
      else
        match bodyDecode with
        | .error e => ⟨.ok (some e), true, true, some outbound, meta, result⟩
        | .ok envelope =>
          match calMetadata meta envelope with
          | .error p => ⟨.error p, true, true, some outbound, meta, envelope⟩
          | .ok m => ⟨.ok none, true, true, some outbound, m, envelope⟩

/-- Observable outcome of one `Suggest` call; fields as in `SearchOutput`. -/
structure SuggestOutput where
  ret : Except GoPanic (Option GoError)
  bodyObtained : Bool
  bodyClosed : Bool
  sentBody : Option GoMap
  resultAfter : GoMap

/-- Embedding of `Suggest` (opensearch.go). Same control flow as `Search`
(including the nil-error log panic on the `StatusCode > 200` branch and the
close deferred only after that check) except that the request forces
`size = 10` and no pagination metadata is computed; a decode error is logged
and returned. -/
def suggestModel (env : SearchEnv) (req : GoMap) (result : GoMap) : SuggestOutput :=
  let outbound := suggestOutboundReq req
  match env.marshalErr with
  | some e => ⟨.ok (some e), false, false, none, result⟩
  | none =>
    match env.doResult with
    | .error e => ⟨.ok (some e), false, false, some outbound, result⟩
    | .ok (status, bodyDecode) =>
      if status > 200 then
        ⟨.error .nilErrorDeref, true, false, some outbound, result⟩
      else
        match bodyDecode with
        | .error e => ⟨.ok (some e), true, true, some outbound, result⟩
        | .ok envelope => ⟨.ok none, true, true, some outbound, envelope⟩

/-- Structured log entry emitted through the injected logger. -/
inductive LogEntry where
  | info (msg : String) (fields : List (String × String))
  | err (msg : String) (fields : List (String × String))

/-- Embedding of `Insert` (opensearch.go): parameterized by the outcome of
`req.Do` (transport error, or HTTP status). On a transport error the error is
logged and returned. On `StatusCode >= 400` the code builds an error log whose
message is `err.Error()` with `err` nil on that path, so it panics before
`errors.New("insert failed")` can be returned. Otherwise it returns nil after
logging success with the index name and document id. Returns the call result
paired with the emitted log entries. -/
def insertModel (indexName docID : String) (doResult : Except GoError Int) :
    Except GoPanic (Option GoError) × List LogEntry :=
  match doResult with
  | .error e =>
    (.ok (some e), [.err e.message [("index_name", indexName), ("doc_id", docID)]])
  | .ok status =>
    if status ≥ 400 then
      (.error .nilErrorDeref, [])
    else
      (.ok none,
        [.info "successfully insert document" [("index_name", indexName), ("doc_id", docID)]])

/-- Embedding of `Update` (opensearch.go); same shape as `Insert` with its own
messages. -/
def updateModel (indexName docID : String) (doResult : Except GoError Int) :
    Except GoPanic (Option GoError) × List LogEntry :=
  match doResult with
  | .error e =>
    (.ok (some e), [.err e.message [("index_name", indexName), ("doc_id", docID)]])
  | .ok status =>
    if status ≥ 400 then
      (.error .nilErrorDeref, [])
    else
      (.ok none,
        [.info "successfully update document" [("index_name", indexName), ("doc_id", docID)]])

/-- Embedding of `Delete` (opensearch.go); same shape as `Insert` with its own
messages. -/
def deleteModel (indexName docID : String) (doResult : Except GoError Int) :
    Except GoPanic (Option GoError) × List LogEntry :=
  match doResult with
  | .error e =>
    (.ok (some e), [.err e.message [("index_name", indexName), ("doc_id", docID)]])
  | .ok status =>
    if status ≥ 400 then
      (.error .nilErrorDeref, [])
    else
      (.ok none,
        [.info "successfully delete document" [("index_name", indexName), ("doc_id", docID)]])

/-- Engine-visible outcome of one bulk item, as reported to the callbacks that
`insertBulk` registers on each `BulkIndexerItem`: the item flushed successfully
(`OnSuccess`); its `Add` failed synchronously (logged, item dropped); it failed
with a transport-level error (`OnFailure` with a non-nil `err`); or the engine
rejected it (`OnFailure` with a nil `err` and `res.Error` carrying type and
reason). -/
inductive ItemOutcome where
  | success
  | addErr (e : GoError)
  | failTransport (e : GoError)
  | failEngine (etype ereason : String)

/-- Embedding of the `OnFailure` callback body registered by `insertBulk`
(opensearch.go). When `err` is non-nil it logs `err.Error()` with index and
document context. When `err` is nil — the engine-rejection case the `else`
branch is meant to handle by logging `res.Error.Type`/`res.Error.Reason` —
the branch still begins with `err.Error()` on the nil error, so it panics. -/
def bulkOnFailureCallback (indexName docID : String) (e : Option GoError)
    (_etype _ereason : String) : Except GoPanic LogEntry :=
  match e with
  | some e =>
    .ok (.err e.message [("index_name", indexName), ("doc_id", docID)])
  | none => .error .nilErrorDeref

/-- Runs the registered callbacks over the per-item outcomes of one bulk
submission, returning the first panic raised in a callback, if any.
(`success` invokes `OnSuccess`, which only logs; `addErr` means the item never
reached a callback — the synchronous `Add` error is logged and swallowed.) -/
def processOutcomes (indexName : String) :
    List (String × ItemOutcome) → Option GoPanic
  | [] => none
  | (docID, outcome) :: rest =>
    match outcome with
    | .failEngine etype ereason =>
      match bulkOnFailureCallback indexName docID none etype ereason with
      | .error p => some p
      | .ok _ => processOutcomes indexName rest
    | .failTransport e =>
      match bulkOnFailureCallback indexName docID (some e) "" "" with
      | .error p => some p
      | .ok _ => processOutcomes indexName rest
    | _ => processOutcomes indexName rest

/-- Observable outcome of one `InsertBulk` call: `fatalExit` is the
`log.Fatalf` (process exit) on indexer-creation failure; `panicked` is an
unrecovered panic raised in a bulk callback (which crashes the process, so the
call never returns); `ret e` is a normal return with error value `e`. -/
inductive InsertBulkOutcome where
  | fatalExit
  | panicked (p : GoPanic)
  | ret (e : Option GoError)

/-- Embedding of `InsertBulk` (opensearch.go), parameterized by the engine
behavior: the indexer-creation outcome, the per-item outcomes delivered to the
callbacks, and the `Close` outcome. Creation failure hits `log.Fatalf`.
A `Close` error is only logged; the aggregate statistics only drive logging.
The single `return` statement is `return nil`, so when no callback panics the
call returns nil regardless of item failures. -/
def insertBulkModel (indexName : String) (createErr : Option GoError)
    (items : List (String × ItemOutcome)) (_closeErr : Option GoError) :
    InsertBulkOutcome :=
  match createErr with
  | some _ => .fatalExit
  | none =>
    match processOutcomes indexName items with
    | some p => .panicked p
    | none => .ret none

/-- Ceiling division characterization: truncating division plus a carry when
the remainder is nonzero equals `(t + p - 1) / p`. -/
theorem div_add_carry_eq_ceil (t p : Nat) (hp : 0 < p) :
    t / p + (if t % p = 0 then 0 else 1) = (t + p - 1) / p := by
  obtain ⟨q, r, hr, rfl⟩ : ∃ q r, r < p ∧ t = p * q + r :=
    ⟨t / p, t % p, Nat.mod_lt t hp, (Nat.div_add_mod t p).symm⟩
  rw [Nat.mul_add_div hp, Nat.mul_add_mod, Nat.div_eq_of_lt hr, Nat.mod_eq_of_lt hr]
  by_cases h : r = 0
  · subst h
    have e1 : p * q + 0 + p - 1 = (p - 1) + p * q := by
      generalize p * q = P
      omega
    rw [if_pos rfl, e1, Nat.add_mul_div_left _ _ hp, Nat.div_eq_of_lt (by omega)]
    omega
  · obtain ⟨s, rfl⟩ : ∃ s, r = s + 1 := ⟨r - 1, by omega⟩
    have hs : s < p := by omega
    have e1 : p * q + (s + 1) + p - 1 = s + p * (q + 1) := by
      have h2 : p * (q + 1) = p * q + p := by ring
      rw [h2]
      generalize p * q = P
      omega
    rw [if_neg h, e1, Nat.add_mul_div_left _ _ hp, Nat.div_eq_of_lt hs]
    omega

/-- Concrete inner `total` object of a well-formed envelope: 25 total matches. -/
def totalObj0 : GoMap := [("value", .num 25)]

/-- Concrete current page: five hit entries. -/
def hits5 : List JsonVal := [.null, .null, .null, .null, .null]

/-- Concrete inner `hits` object of a well-formed envelope. -/
def hitsObj0 : GoMap := [("total", .obj totalObj0), ("hits", .arr hits5)]

/-- Concrete well-formed result envelope: 25 total matches, 5 hits on the page. -/
def goodEnvelope : GoMap := [("hits", .obj hitsObj0)]

/-- Concrete input metadata: 10 items per page, offset 10. -/
def meta0 : PaginationMetadata := ⟨10, 10, 0, 0, 0⟩

/-- Expected output of `calMetadata meta0 goodEnvelope`. -/
def metaOut0 : PaginationMetadata := ⟨10, 10, 25, 3, 5⟩

/-- Concrete caller request map. -/
def req0 : GoMap := [("query", .str "q")]

/-- Empty Go map. -/
def emptyMap : GoMap := []

/-- Tests whether a JSON value is a number. -/
def isNumVal : JsonVal → Bool
  | .num _ => true
  | _ => false

/-- Tests whether a JSON value is an array. -/
def isArrVal : JsonVal → Bool
  | .arr _ => true
  | _ => false

/-- Input classification for claim C3: the envelope's `hits` key is absent or
not a mapping, or `hits.total.value` is absent or not a number, or `hits.hits`
is absent or not a sequence (an absent Go map key reads as `nil`). -/
def malformedEnvelope (envelope : GoMap) : Bool :=
  match mapGet envelope "hits" with
  | .obj hitsObj =>
    (match mapGet hitsObj "total" with
     | .obj totalObj => !(isNumVal (mapGet totalObj "value"))
     | _ => true)
    || !(isArrVal (mapGet hitsObj "hits"))
  | _ => true

/-- Outcome classifier: the embedded computation ends in a Go runtime panic. -/
def panics {α : Type} : Except GoPanic α → Bool
  | .error _ => true
  | .ok _ => false

/-- Outcome classifier: the `Search` call returned normally with a non-nil
error value. -/
def returnedError (o : SearchOutput) : Bool :=
  match o.ret with
  | .ok (some _) => true
  | _ => false

/-- C1: for every pagination metadata with `itemsPerPage > 0` and every result
envelope whose `hits.total.value` is a non-negative integer `totalItem`, the
metadata computation sets `totalPage` to the truncating division of `totalItem`
by `itemsPerPage` incremented by one exactly when the remainder is nonzero,
which equals `ceil(totalItem / itemsPerPage)` (computed as `(t + p - 1) / p`). -/
theorem calMetadata_totalPage (meta : PaginationMetadata)
    (envelope : GoMap) (hitsObj totalObj : GoMap) (l : List JsonVal) (t p : Nat)
    (hp : 0 < p) (hipp : meta.ItemsPerPage = (p : Int))
    (h1 : mapGet envelope "hits" = .obj hitsObj)
    (h2 : mapGet hitsObj "total" = .obj totalObj)
    (h3 : mapGet totalObj "value" = .num (t : Int))
    (h4 : mapGet hitsObj "hits" = .arr l)
    (m : PaginationMetadata)
    (hok : calMetadata meta envelope = .ok m) :
    m.TotalPage = ((t / p : Nat) : Int) + (if (t % p : Nat) ≠ 0 then 1 else 0)
    ∧ m.TotalPage = (((t + p - 1) / p : Nat) : Int) := by
  have hpz : p ≠ 0 := by omega
  have hz : ¬((p : Int) = 0) := by exact_mod_cast hpz
  have htd : Int.tdiv (t : Int) (p : Int) = ((t / p : Nat) : Int) := rfl
  have htm : Int.tmod (t : Int) (p : Int) = ((t % p : Nat) : Int) := rfl
  simp only [calMetadata, h1, h2, h3, h4, asObj, asNum, asArr, Except.bind, hipp,
    if_neg hz] at hok
  have hceil := div_add_carry_eq_ceil t p hp
  by_cases hmod : t % p = 0
  · rw [if_neg (by simp [htm, hmod])] at hok
    obtain rfl := Except.ok.inj hok
    rw [if_pos hmod] at hceil
    constructor
    · simp [hmod, htd]
    · simpa [htd] using Nat.cast_inj.mpr ((Nat.add_zero (t / p)) ▸ hceil)
  · rw [if_pos (htm ▸ Int.natCast_ne_zero.mpr hmod)] at hok
    obtain rfl := Except.ok.inj hok
    rw [if_neg hmod] at hceil
    constructor
    · simp [hmod, htd]
    · show Int.tdiv (t : Int) (p : Int) + 1 = _
      rw [htd, ← Nat.cast_inj.mpr hceil]
      simp

/-- Witness for C1: `totalItem = 25`, `itemsPerPage = 10` gives `totalPage = 3`. -/
theorem calMetadata_totalPage_witness :
    metaOut0.TotalPage = (((25 / 10 : Nat) : Int)) + (if (25 % 10 : Nat) ≠ 0 then 1 else 0)
    ∧ metaOut0.TotalPage = (((25 + 10 - 1) / 10 : Nat) : Int) :=
  calMetadata_totalPage meta0 goodEnvelope hitsObj0 totalObj0 hits5 25 10 (by decide)
    rfl rfl rfl rfl rfl metaOut0 rfl

/-- C4: for every well-formed result envelope, the metadata computation sets
`ItemCount` to the literal number of entries of the envelope's `hits.hits`
array, independent of `itemsPerPage` and of `hits.total.value` (both are
universally quantified here and do not occur in the conclusion). -/
theorem calMetadata_itemCount (meta : PaginationMetadata)
    (envelope : GoMap) (hitsObj : GoMap) (l : List JsonVal)
    (h1 : mapGet envelope "hits" = .obj hitsObj)
    (h4 : mapGet hitsObj "hits" = .arr l)
    (m : PaginationMetadata)
    (hok : calMetadata meta envelope = .ok m) :
    m.ItemCount = (l.length : Int) := by
  simp only [calMetadata, h1, h4, asObj, asArr, Except.bind] at hok
  rcases htot : mapGet hitsObj "total" with _ | b | n | s | xs | fields <;>
    rw [htot] at hok <;>
    simp only [asObj, Except.bind] at hok
  case obj =>
    rcases hval : mapGet fields "value" with _ | b2 | n2 | s2 | xs2 | fs2 <;>
      rw [hval] at hok <;>
      simp only [asNum, Except.bind] at hok
    case num =>
      by_cases hz : meta.ItemsPerPage = 0
      · rw [if_pos hz] at hok
        cases hok
      · rw [if_neg hz] at hok
        by_cases hmod : Int.tmod n2 meta.ItemsPerPage ≠ 0
        · rw [if_pos hmod] at hok
          obtain rfl := Except.ok.inj hok
          rfl
        · rw [if_neg hmod] at hok
          obtain rfl := Except.ok.inj hok
          rfl
    all_goals cases hok
  all_goals cases hok

/-- Witness for C4: five hit entries give `ItemCount = 5`. -/
theorem calMetadata_itemCount_witness : metaOut0.ItemCount = (hits5.length : Int) :=
  calMetadata_itemCount meta0 goodEnvelope hitsObj0 hits5 rfl rfl metaOut0 rfl

/-- C3 (amended): for every result envelope in which `hits` is absent or not a
mapping, or `hits.total.value` is absent or not a number, or `hits.hits` is
absent or not a sequence, the metadata computation panics (an unchecked Go
type-assertion failure, or the division panic when `ItemsPerPage` is zero)
instead of returning; no `MalformedResponse` error value exists in the code. -/
theorem calMetadata_malformed_panics (meta : PaginationMetadata) (envelope : GoMap)
    (h : malformedEnvelope envelope = true) :
    panics (calMetadata meta envelope) = true := by
  simp only [calMetadata]
  rcases hhits : mapGet envelope "hits" with _ | b | n | s | xs | hitsObj <;> try rfl
  simp only [asObj, Except.bind]
  rcases htot : mapGet hitsObj "total" with _ | b2 | n2 | s2 | xs2 | totalObj <;> try rfl
  simp only [asObj, Except.bind]
  rcases hval : mapGet totalObj "value" with _ | b3 | n3 | s3 | xs3 | fs3 <;> try rfl
  simp only [asNum, Except.bind]
  by_cases hz : meta.ItemsPerPage = 0
  · rw [if_pos hz]
    rfl
  · rw [if_neg hz]
    rcases harr : mapGet hitsObj "hits" with _ | b4 | n4 | s4 | l | fs4 <;> try rfl
    have hfalse : malformedEnvelope envelope = false := by
      rw [malformedEnvelope, hhits]
      simp [htot, hval, harr, isNumVal, isArrVal]
    rw [hfalse] at h
    cases h

/-- Witness for C3 (amended): the empty envelope makes `calMetadata` panic. -/
theorem calMetadata_malformed_panics_witness :
    panics (calMetadata meta0 emptyMap) = true :=
  calMetadata_malformed_panics meta0 emptyMap rfl

/-- Counterexample for C3 as stated: with a well-behaved transport (status 200)
whose body decodes to an envelope with no `hits` key, `Search` does not return
any error value — the metadata computation panics with a type-assertion
failure, so no `MalformedResponse` (nor any other) error reaches the caller. -/
theorem search_malformed_no_error_returned :
    returnedError (searchModel ⟨none, .ok (200, .ok emptyMap)⟩ req0 meta0 emptyMap) = false
    ∧ (searchModel ⟨none, .ok (200, .ok emptyMap)⟩ req0 meta0 emptyMap).ret
        = .error GoPanic.typeAssertion :=
  ⟨rfl, rfl⟩

/-- C2 (code bug): when an item of an `InsertBulk` call fails at the engine,
the registered `OnFailure` callback is invoked with a nil `err`, and its
`else` branch calls `err.Error()` on that nil error: the callback panics
instead of logging, so the call crashes rather than returning nil. When no
item fails at the engine the call does return nil. -/
theorem insertBulk_engine_failure_panics :
    insertBulkModel "idx" none
        [("d1", .success), ("d2", .failEngine "mapper_parsing_exception" "parse failure")]
        none
      = .panicked GoPanic.nilErrorDeref
    ∧ bulkOnFailureCallback "idx" "d2" none "mapper_parsing_exception" "parse failure"
        = .error GoPanic.nilErrorDeref
    ∧ insertBulkModel "idx" none [("d1", .success), ("d2", .success)] none = .ret none :=
  ⟨rfl, rfl, rfl⟩

/-- C5 (code bug): when the engine responds with a status strictly greater
than 200, neither `Search` nor `Suggest` returns the `"Invalid query"` error:
the status branch logs `err.Error()` on the nil transport error and panics
first. At status exactly 200 the calls return nil. -/
theorem search_suggest_status_branch_panics :
    (searchModel ⟨none, .ok (201, .ok goodEnvelope)⟩ req0 meta0 emptyMap).ret
        = .error GoPanic.nilErrorDeref
    ∧ (suggestModel ⟨none, .ok (201, .ok goodEnvelope)⟩ req0 emptyMap).ret
        = .error GoPanic.nilErrorDeref
    ∧ returnedError (searchModel ⟨none, .ok (201, .ok goodEnvelope)⟩ req0 meta0 emptyMap)
        = false
    ∧ (searchModel ⟨none, .ok (200, .ok goodEnvelope)⟩ req0 meta0 emptyMap).ret = .ok none
    ∧ (suggestModel ⟨none, .ok (200, .ok goodEnvelope)⟩ req0 emptyMap).ret = .ok none :=
  ⟨rfl, rfl, rfl, rfl, rfl⟩

/-- C6 (code bug): a single-document operation receiving status 404 does not
return its `OperationFailed` error ("insert failed" / "update failed" /
"delete failed"): the error branch logs `err.Error()` on the nil transport
error and panics first. At status 200 each operation returns nil and logs
success with the index name and document id. -/
theorem singledoc_status_branches :
    (insertModel "idx" "d1" (.ok 404)).fst = .error GoPanic.nilErrorDeref
    ∧ (updateModel "idx" "d1" (.ok 404)).fst = .error GoPanic.nilErrorDeref
    ∧ (deleteModel "idx" "d1" (.ok 404)).fst = .error GoPanic.nilErrorDeref
    ∧ insertModel "idx" "d1" (.ok 200)
        = (.ok none,
           [.info "successfully insert document" [("index_name", "idx"), ("doc_id", "d1")]])
    ∧ updateModel "idx" "d1" (.ok 200)
        = (.ok none,
           [.info "successfully update document" [("index_name", "idx"), ("doc_id", "d1")]])
    ∧ deleteModel "idx" "d1" (.ok 200)
        = (.ok none,
           [.info "successfully delete document" [("index_name", "idx"), ("doc_id", "d1")]]) :=
  ⟨rfl, rfl, rfl, rfl, rfl, rfl⟩

/-- C7: every `Suggest` call sets the outbound request's `size` key to 10
before submission, overwriting any caller-supplied value; whenever a request
body is handed to the transport, its `size` is 10. -/
theorem suggest_size_forced (req : GoMap) :
    mapGet (suggestOutboundReq req) "size" = .num 10
    ∧ ∀ env result s, (suggestModel env req result).sentBody = some s →
        mapGet s "size" = .num 10 := by
  have h1 : mapGet (suggestOutboundReq req) "size" = .num 10 :=
    mapGet_insert_same req "size" (.num 10)
  refine ⟨h1, ?_⟩
  intro env result s hs
  obtain ⟨me, dr⟩ := env
  rcases me with _ | e
  · rcases dr with e | ⟨status, bd⟩
    · simp only [suggestModel] at hs
      obtain rfl := Option.some.inj hs
      exact h1
    · by_cases hst : status > 200
      · simp only [suggestModel] at hs
        rw [if_pos hst] at hs
        obtain rfl := Option.some.inj hs
        exact h1
      · rcases bd with e2 | envelope <;>
          simp only [suggestModel] at hs <;>
          rw [if_neg hst] at hs <;>
          (obtain rfl := Option.some.inj hs; exact h1)
  · simp only [suggestModel] at hs
    cases hs

/-- Witness for C7: a caller-supplied `size` of 50 is overwritten with 10, as
observed on the body submitted by a concrete `Suggest` call. -/
theorem suggest_size_forced_witness :
    mapGet (suggestOutboundReq [("size", JsonVal.num 50)]) "size" = JsonVal.num 10 :=
  (suggest_size_forced [("size", JsonVal.num 50)]).2
    ⟨none, .ok (200, .ok emptyMap)⟩ emptyMap
    (suggestOutboundReq [("size", JsonVal.num 50)]) rfl

/-- C8: the request map `Search` submits equals the caller's request map with
exactly the key `from` set to the metadata's offset and `size` set to its
items-per-page; every other key reads the same as in the caller's map, and
whatever body is handed to the transport is exactly this map. -/
theorem search_from_size_frame (req : GoMap) (meta : PaginationMetadata) :
    mapGet (searchOutboundReq req meta) "from" = .num meta.Offset
    ∧ mapGet (searchOutboundReq req meta) "size" = .num meta.ItemsPerPage
    ∧ (∀ k, k ≠ "from" → k ≠ "size" →
        mapGet (searchOutboundReq req meta) k = mapGet req k)
    ∧ ∀ env result s, (searchModel env req meta result).sentBody = some s →
        s = searchOutboundReq req meta := by
  refine ⟨?_, ?_, ?_, ?_⟩
  · rw [searchOutboundReq,
      mapGet_insert_other _ _ _ _ (by decide),
      mapGet_insert_same]
    rfl
  · exact mapGet_insert_same _ "size" _
  · intro k hk1 hk2
    rw [searchOutboundReq,
      mapGet_insert_other _ _ _ _ hk2,
      mapGet_insert_other _ _ _ _ hk1]
  · intro env result s hs
    obtain ⟨me, dr⟩ := env
    rcases me with _ | e
    · rcases dr with e | ⟨status, bd⟩
      · simp only [searchModel] at hs
        obtain rfl := Option.some.inj hs
        rfl
      · by_cases hst : status > 200
        · simp only [searchModel] at hs
          rw [if_pos hst] at hs
          obtain rfl := Option.some.inj hs
          rfl
        · rcases bd with e2 | envelope
          · simp only [searchModel] at hs
            rw [if_neg hst] at hs
            obtain rfl := Option.some.inj hs
            rfl
          · rcases hcm : calMetadata meta envelope with p | m <;>
              simp only [searchModel] at hs <;>
              rw [if_neg hst] at hs <;>
              rw [hcm] at hs <;>
              (obtain rfl := Option.some.inj hs; rfl)
    · simp only [searchModel] at hs
      cases hs

/-- Witness for C8: with offset 10 and items-per-page 10, the outbound body
carries `from = 10` and leaves the caller's `query` key unchanged. -/
theorem search_from_size_frame_witness :
    mapGet (searchOutboundReq req0 meta0) "from" = JsonVal.num 10
    ∧ mapGet (searchOutboundReq req0 meta0) "query" = JsonVal.str "q" :=
  ⟨(search_from_size_frame req0 meta0).1,
   (search_from_size_frame req0 meta0).2.2.1 "query" (by decide) (by decide)⟩

/-- C9 (amended): when `Search` or `Suggest` obtains a response, the body is
closed on the decode-failure and success paths (the deferred close runs even
while a `calMetadata` panic unwinds), but on the failure-status path
(status > 200) the function exits before `res.Body.Close()` is deferred, so
the body is not closed there. -/
theorem response_body_close (status : Int) (bd : Except GoError GoMap)
    (req result : GoMap) (meta : PaginationMetadata) :
    (status ≤ 200 →
      (searchModel ⟨none, .ok (status, bd)⟩ req meta result).bodyClosed = true
      ∧ (suggestModel ⟨none, .ok (status, bd)⟩ req result).bodyClosed = true)
    ∧ (status > 200 →
      (searchModel ⟨none, .ok (status, bd)⟩ req meta result).bodyClosed = false
      ∧ (suggestModel ⟨none, .ok (status, bd)⟩ req result).bodyClosed = false) := by
  by_cases hst : status > 200
  · constructor
    · intro h
      omega
    · intro h
      constructor <;> simp [searchModel, suggestModel, hst]
  · constructor
    · intro h
      rcases bd with e | envelope
      · constructor <;> simp [searchModel, suggestModel, hst]
      · rcases hcm : calMetadata meta envelope with p | m <;>
          constructor <;> simp [searchModel, suggestModel, hst, hcm]
    · intro h
      omega

/-- Witness for C9 (amended): at status 200 the body is closed; at status 201
it is not. -/
theorem response_body_close_witness :
    (searchModel ⟨none, .ok (200, .ok goodEnvelope)⟩ req0 meta0 emptyMap).bodyClosed = true
    ∧ (suggestModel ⟨none, .ok (201, .ok goodEnvelope)⟩ req0 emptyMap).bodyClosed = false :=
  ⟨((response_body_close 200 (.ok goodEnvelope) req0 emptyMap meta0).1 (by decide)).1,
   ((response_body_close 201 (.ok goodEnvelope) req0 emptyMap meta0).2 (by decide)).2⟩

/-- Counterexample for C9 as stated: a `Search` obtaining a 404 response exits
(by the nil-error logging panic) with the response body never closed. -/
theorem search_unclosed_body :
    (searchModel ⟨none, .ok (404, .ok goodEnvelope)⟩ req0 meta0 emptyMap).bodyObtained = true
    ∧ (searchModel ⟨none, .ok (404, .ok goodEnvelope)⟩ req0 meta0 emptyMap).bodyClosed
        = false :=
  ⟨rfl, rfl⟩

/-- C10: whenever the transport call succeeds but the engine's status falls in
the failure range (> 200 for `Search`/`Suggest`, >= 400 for `Insert`/`Update`/
`Delete`), the error-status branch calls `Error()` on the nil error value
while building its log entry, so the call panics with a nil dereference before
the synthesized domain error can be returned. -/
theorem nil_error_log_panics (status : Int) (bd : Except GoError GoMap)
    (req result : GoMap) (meta : PaginationMetadata) (indexName docID : String) :
    (status > 200 →
      (searchModel ⟨none, .ok (status, bd)⟩ req meta result).ret
          = .error GoPanic.nilErrorDeref
      ∧ (suggestModel ⟨none, .ok (status, bd)⟩ req result).ret
          = .error GoPanic.nilErrorDeref)
    ∧ (status ≥ 400 →
      (insertModel indexName docID (.ok status)).fst = .error GoPanic.nilErrorDeref
      ∧ (updateModel indexName docID (.ok status)).fst = .error GoPanic.nilErrorDeref
      ∧ (deleteModel indexName docID (.ok status)).fst = .error GoPanic.nilErrorDeref) := by
  constructor
  · intro h
    constructor <;> simp [searchModel, suggestModel, h]
  · intro h
    refine ⟨?_, ?_, ?_⟩ <;> simp [insertModel, updateModel, deleteModel, h]

/-- Witness for C10: status 404 panics in all five operations' embeddings. -/
theorem nil_error_log_panics_witness :
    (searchModel ⟨none, .ok (404, .ok goodEnvelope)⟩ req0 meta0 emptyMap).ret
        = .error GoPanic.nilErrorDeref
    ∧ (insertModel "idx" "d1" (.ok 404)).fst = .error GoPanic.nilErrorDeref :=
  ⟨((nil_error_log_panics 404 (.ok goodEnvelope) req0 emptyMap meta0 "idx" "d1").1
      (by decide)).1,
   ((nil_error_log_panics 404 (.ok goodEnvelope) req0 emptyMap meta0 "idx" "d1").2
      (by decide)).1⟩
